import Mathlib

/-!
Verification development for the SimpleNVR control server.

The definitions below are a shallow embedding of the Go source: the control
server file (`stopService`, `startWorker`, `stopWorker`, `handleCLIConn`,
`handleCLICommand`, `addCamera`, `initDB`), the shared type declarations
(`JSONNullString`, `Config`, `Camera`), and `listCamerasString` from the
client file.  Pure string manipulation is modelled on `List Char`; the
SQLite `cameras` table is modelled as a list of rows with the UNIQUE
constraints of `initDB`; the `workers` map guarded by `workersMu` is
modelled as an association list together with an explicit lock flag, and a
function returns `none` when the Go original panics (index out of range,
close of a closed channel) or blocks forever (a second `Lock` of the
non-reentrant `sync.Mutex` by the same call chain).
-/

namespace SimpleNVR

/-- Embedding of Go `type JSONNullString sql.NullString`: a string together
with a validity flag; JSON `null` unmarshals to `⟨"", false⟩`. -/
structure JSONNullString where
  string : String
  valid : Bool
deriving DecidableEq, Repr

/-- Embedding of the Go `Config` struct: segment time, retry interval and
max backoff, all Go `int` (modelled as unbounded `Int`; the one place where
64-bit wrap-around matters, the `time.Duration` multiplication in the
supervisor loop, applies `wrap64` explicitly). -/
structure Config where
  segmentTime : Int
  retryInterval : Int
  maxBackoff : Int
deriving DecidableEq, Repr

/-- Embedding of the Go `Camera` struct used by the control server
(`part_002`): id plus textual fields, with the three nullable columns as
`JSONNullString`. -/
structure Camera where
  id : Int
  name : String
  url : String
  outputDir : String
  username : JSONNullString
  password : JSONNullString
  restream : JSONNullString
deriving DecidableEq, Repr

/-- Boolean prefix test on character lists (Go `strings.HasPrefix` on the
underlying bytes, restricted to the separators used here). -/
def prefixOfB : List Char → List Char → Bool
  | [], _ => true
  | _ :: _, [] => false
  | a :: as, b :: bs => (a == b) && prefixOfB as bs

/-- Split a character list at the first occurrence of `sep`, returning the
part before and the part after, or `none` when `sep` does not occur. -/
def splitAtFirst (sep : List Char) : List Char → Option (List Char × List Char)
  | [] => none
  | c :: rest =>
    if prefixOfB sep (c :: rest) then some ([], (c :: rest).drop sep.length)
    else
      match splitAtFirst sep rest with
      | some (p, q) => some (c :: p, q)
      | none => none

/-- Embedding of Go `strings.SplitN(s, sep, 2)` for a non-empty separator:
either the two pieces around the first occurrence of `sep`, or `[s]` when
`sep` does not occur in `s`. -/
def splitN2 (s sep : String) : List String :=
  match splitAtFirst sep.data s.data with
  | some (p, q) => [String.mk p, String.mk q]
  | none => [s]

/-- Boolean substring test: `hasSub sub s` is true when `sub` occurs
contiguously inside `s`. -/
def hasSub (sub : List Char) : List Char → Bool
  | [] => prefixOfB sub []
  | c :: t => prefixOfB sub (c :: t) || hasSub sub t

/-- String-level substring test built on `hasSub`. -/
def strContains (s sub : String) : Bool :=
  hasSub sub.data s.data

/-- Condition under which `startWorker` rewrites the URL
(line `if cam.Username.Valid && cam.Username.String != ""`): note that the
password is not consulted. -/
def usernamePresent (cam : Camera) : Bool :=
  cam.username.valid && !(cam.username.string == "")

/-- Embedding of the `fullURL` computation in `startWorker` (control-server
file, lines 147–151): when `usernamePresent`, split the URL at the first
`"://"` and splice `username:password@` into the authority; `parts[1]` is a
panic (`none`) when the URL has no `"://"`.  Otherwise the URL is used
unchanged. -/
def buildFullURL (cam : Camera) : Option String :=
  if usernamePresent cam then
    match splitN2 cam.url ("://") with
    | [scheme, rest] =>
      some (scheme ++ "://" ++ cam.username.string ++ ":" ++ cam.password.string ++ "@" ++ rest)
    | _ => none
  else some cam.url

/-- Embedding of the ffmpeg argument list built in `startWorker`
(lines 152–162): input URL, stream copy, segment muxer with the configured
segment time, output pattern in the camera's directory, and an extra rtsp
output when the restream field is valid. -/
def buildArgs (cam : Camera) (cfg : Config) : Option (List String) :=
  (buildFullURL cam).map (fun fullURL =>
    ["-i", fullURL, "-c", "copy", "-f", "segment",
     "-segment_time", toString cfg.segmentTime,
     cam.outputDir ++ "/output_%03d.mp4"]
    ++ (if cam.restream.valid then ["-f", "rtsp", cam.restream.string] else []))

/-- Runtime worker handle (Go `Worker`): the camera snapshot, the argument
list of its `exec.Cmd`, whether `stopCh` has been closed, and whether
`cmd.Process` is non-nil (i.e. a process was actually started). -/
structure Worker where
  camera : Camera
  args : List String
  stopClosed : Bool
  procStarted : Bool
deriving DecidableEq, Repr

/-- Shared mutable state of the worker subsystem: the `workers` map as an
association list keyed by camera id, the `workersMu` lock flag, the ids
whose process received `Process.Kill`, and the worker-failure log lines. -/
structure NvrState where
  workers : List (Int × Worker)
  lockHeld : Bool
  killed : List Int
  errorsLogged : List String
deriving DecidableEq, Repr

/-- Map lookup on the association list (first matching key). -/
def lookupAssoc (l : List (Int × Worker)) (id : Int) : Option Worker :=
  match l with
  | [] => none
  | e :: rest => if e.1 == id then some e.2 else lookupAssoc rest id

/-- Map membership test. -/
def containsKey (l : List (Int × Worker)) (id : Int) : Bool :=
  l.any (fun e => e.1 == id)

/-- Map deletion (Go `delete(workers, id)`); keys are unique in a Go map,
and removal by filtering agrees with that on every reachable state. -/
def removeKey (l : List (Int × Worker)) (id : Int) : List (Int × Worker) :=
  l.filter (fun e => !(e.1 == id))

/-- Result of `startWorker` as observable to the caller: either the
"already running" early return or a successful registration. -/
inductive StartResult where
  | alreadyRunning : StartResult
  | started : StartResult
deriving DecidableEq, Repr

/-- Embedding of `startWorker` (lines 137–185), up to and including the
registration of the new handle; `none` models a blocked `Lock` when the
mutex is already held by this call chain, or the `parts[1]` panic while
building the URL.  The deferred `Unlock` runs on every `some` path, so the
returned state has the lock free again.  The supervisor goroutine spawned
at line 171 is modelled separately (`startWorkerThenSpawn`): it only ever
touches `cmd` and `stopCh`, never the `workers` map. -/
def startWorkerGo (cam : Camera) (cfg : Config) (s : NvrState) :
    Option (StartResult × NvrState) :=
  if s.lockHeld then none
  else if containsKey s.workers cam.id then
    some (StartResult.alreadyRunning, s)
  else
    match buildArgs cam cfg with
    | none => none
    | some args =>
      some (StartResult.started,
        { s with workers := s.workers ++ [(cam.id, ⟨cam, args, false, false⟩)] })

/-- Set the `procStarted` flag of the worker registered under `id`
(the effect of `cmd.Run` successfully starting the process). -/
def setProcStarted (s : NvrState) (id : Int) : NvrState :=
  { s with workers := s.workers.map (fun e =>
      if e.1 == id then (e.1, { e.2 with procStarted := true }) else e) }

/-- `startWorker` followed by the first action of its supervisor goroutine
(lines 171–184): `cmd.Run()` either starts the process (`spawnOk = true`,
setting `cmd.Process`) or fails to spawn (`spawnOk = false`, printing the
"Worker ... failed" line).  The goroutine body never reads or writes the
`workers` map, so the registry part of the state is untouched either
way. -/
def startWorkerThenSpawn (cam : Camera) (cfg : Config) (spawnOk : Bool)
    (s : NvrState) : Option NvrState :=
  (startWorkerGo cam cfg s).map (fun p =>
    match p.1 with
    | StartResult.alreadyRunning => p.2
    | StartResult.started =>
      if spawnOk then setProcStarted p.2 cam.id
      else { p.2 with errorsLogged := p.2.errorsLogged ++ [cam.name] })

/-- Embedding of `stopWorker` (lines 187–198): take the lock (`none` when
it is already held: `sync.Mutex` is not reentrant and the goroutine blocks
forever), look the id up; when present, close `stopCh` (`none` if it was
already closed — closing a closed channel panics, unreachable from the
states this program produces), kill the process when one was started,
delete the entry; when absent, do nothing.  The deferred `Unlock` leaves
the lock free on every `some` path. -/
def stopWorkerGo (id : Int) (s : NvrState) : Option NvrState :=
  if s.lockHeld then none
  else
    match lookupAssoc s.workers id with
    | some w =>
      if w.stopClosed then none
      else
        some { s with workers := removeKey s.workers id,
                      killed := if w.procStarted then s.killed ++ [id] else s.killed }
    | none => some s

/-- Embedding of `stopService` (lines 128–135): acquire `workersMu`, then
call `stopWorker id` for each id in the map while still holding the lock.
Each such call begins with `workersMu.Lock()` on the same non-reentrant
mutex, which blocks forever, so the fold over the ids runs `stopWorkerGo`
on a state whose lock flag is set.  Go's map iteration order is
unspecified, but the first iteration already deadlocks, so the list order
used here is immaterial. -/
def stopServiceGo (s : NvrState) : Option NvrState :=
  if s.lockHeld then none
  else
    let s1 : NvrState := { s with lockHeld := true }
    match (s1.workers.map Prod.fst).foldlM (fun st id => stopWorkerGo id st) s1 with
    | none => none
    | some s2 => some { s2 with lockHeld := false }

/-- A row of the `cameras` table as the control-server `addCamera` writes
it: it binds plain Go strings for all of `restream_url`, `username` and
`password` (`cam.Restream.String` etc., line 255), so those columns hold
`""` — never SQL `NULL` — for a `null` JSON field. -/
structure CamRow where
  id : Int
  name : String
  url : String
  outputDir : String
  restreamUrl : String
  username : String
  password : String
deriving DecidableEq, Repr

/-- The `cameras` table of `initDB` plus its AUTOINCREMENT counter
(`LastInsertId` returns the rowid of the inserted row). -/
structure Store where
  rows : List CamRow
  nextId : Int
deriving DecidableEq, Repr

/-- The UNIQUE constraints of `initDB` (lines 56–64): `name`, `url`,
`output_dir` and `restream_url` are each UNIQUE.  SQLite treats NULLs as
distinct under UNIQUE, but every value this code path binds is a string,
so plain string equality is the faithful check. -/
def violatesUnique (st : Store) (c : CamRow) : Bool :=
  st.rows.any (fun r =>
    (r.name == c.name) || (r.url == c.url) ||
    (r.outputDir == c.outputDir) || (r.restreamUrl == c.restreamUrl))

/-- The row the `INSERT INTO cameras` of `addCamera` (lines 252–255)
produces from a decoded payload. -/
def rowOfCamera (st : Store) (cam : Camera) : CamRow :=
  { id := st.nextId, name := cam.name, url := cam.url,
    outputDir := cam.outputDir, restreamUrl := cam.restream.string,
    username := cam.username.string, password := cam.password.string }

/-- The `db.Exec` of `addCamera`: fails on a UNIQUE-constraint violation,
otherwise appends the row and returns its id. -/
def dbInsertCamera (st : Store) (cam : Camera) : Option (Int × Store) :=
  if violatesUnique st (rowOfCamera st cam) then none
  else some (st.nextId, { rows := st.rows ++ [rowOfCamera st cam], nextId := st.nextId + 1 })

/-- Outcome of `json.Unmarshal` on an `addCamera` payload: either a decoded
`Camera` or an error message.  The JSON decoder itself is an external
library the code calls; the claims quantify over its outcome. -/
inductive ParseOutcome where
  | ok : Camera → ParseOutcome
  | err : String → ParseOutcome
deriving DecidableEq, Repr

/-- The success response string of `addCamera` (line 265). -/
def successResponse (id : Int) : String :=
  "\x7b\"status\": \"success\", \"message\": \"Camera created successfully\", \"id\": \"" ++ toString id ++ "\"\x7d"

/-- The invalid-JSON failure response of `addCamera` (line 249). -/
def invalidJSONResponse (m : String) : String :=
  "\x7b\"status\": \"failure\", \"message\": \"Invalid JSON: " ++ m ++ "\", \"id\": null\x7d"

/-- The database-error failure response of `addCamera` (line 257). -/
def dbErrorResponse (m : String) : String :=
  "\x7b\"status\": \"failure\", \"message\": \"Error adding camera: " ++ m ++ "\", \"id\": null\x7d"

/-- Stand-in for the exact text of the driver's UNIQUE-constraint error;
the claims depend only on the response being a failure. -/
def dbUniqueMsg : String :=
  "UNIQUE constraint failed"

/-- True when the response string carries `"status": "failure"` — every
failure response of `addCamera` starts this way and no success response
does. -/
def respStatusFailure (r : String) : Bool :=
  prefixOfB ("\x7b\"status\": \"failure\"").data r.data

/-- Embedding of the control-server `addCamera` (lines 245–266): decode
failure yields the invalid-JSON response and leaves the store untouched;
an insert error yields the database failure response and leaves the store
untouched; otherwise the row is inserted and the success response carries
`LastInsertId`. -/
def addCamera (st : Store) (p : ParseOutcome) : String × Store :=
  match p with
  | ParseOutcome.err m => (invalidJSONResponse m, st)
  | ParseOutcome.ok cam =>
    match dbInsertCamera st cam with
    | none => (dbErrorResponse dbUniqueMsg, st)
    | some (id, st1) => (successResponse id, st1)

/-- One line of `listCamerasString` output
(`"ID: %d, Name: %s, URL: %s\n"`). -/
def listLine (id : Int) (name url : String) : String :=
  "ID: " ++ toString id ++ ", Name: " ++ name ++ ", URL: " ++ url ++ "\n"

/-- The line rendered for one stored row. -/
def camLine (r : CamRow) : String :=
  listLine r.id r.name r.url

/-- In-order concatenation, as the `strings.Builder` loop performs it. -/
def concatAll : List String → String
  | [] => ""
  | sline :: rest => sline ++ concatAll rest

/-- Embedding of `listCamerasString` (client file, lines 264–285): select
`id, name, url` of every row and concatenate one formatted line per
row. -/
def listCamerasString (st : Store) : String :=
  concatAll (st.rows.map camLine)

/-- Full state visible to a control connection: the camera store, the
worker subsystem, and the global config. -/
structure ServerState where
  store : Store
  nvr : NvrState
  config : Config
deriving DecidableEq, Repr

/-- The `"%+v"` rendering of the config used by the `config` command. -/
def configString (cfg : Config) : String :=
  "Current config: \x7bSegmentTime:" ++ toString cfg.segmentTime ++
  " RetryInterval:" ++ toString cfg.retryInterval ++
  " MaxBackoff:" ++ toString cfg.maxBackoff ++ "\x7d"

/-- The camera `startService` hands to `startWorker` for a stored row.
`rows.Scan` (line 122) targets `*JSONNullString` for username, password
and restream; `JSONNullString` is a defined type and does not inherit
`sql.NullString`'s `Scan` method, so the scan errors on the username
column — the error is discarded and the three nullable fields keep their
zero value `⟨"", false⟩`. -/
def scannedCamera (r : CamRow) : Camera :=
  { id := r.id, name := r.name, url := r.url, outputDir := r.outputDir,
    username := ⟨"", false⟩, password := ⟨"", false⟩, restream := ⟨"", false⟩ }

/-- Embedding of `startService` (lines 110–126): one `startWorker` call per
stored camera row, without holding the registry lock across the calls. -/
def startServiceGo (store : Store) (cfg : Config) (s : NvrState) : Option NvrState :=
  store.rows.foldlM (fun st r => (startWorkerGo (scannedCamera r) cfg st).map Prod.snd) s

/-- Embedding of `handleCLICommand` (lines 225–243).  The command line is
split at the first `|`; the switch on `parts[0]` recognizes `list`,
`start`, `stop`, `config` and `addCamera`, and anything else gets the
fixed unknown-command response.  The `addCamera` arm reads `parts[1]`,
which panics (`none`) when the line contains no `|`.  `parse` is the
outcome of `json.Unmarshal` on the payload. -/
def handleCLICommand (parse : String → ParseOutcome) (cmd : String)
    (st : ServerState) : Option (String × ServerState) :=
  match splitN2 cmd ("|") with
  | [] => some ("Unknown command", st)
  | cmd0 :: rest =>
    if cmd0 == "list" then some (listCamerasString st.store, st)
    else if cmd0 == "start" then
      (startServiceGo st.store st.config st.nvr).map
        (fun n => ("Service started.", { st with nvr := n }))
    else if cmd0 == "stop" then
      (stopServiceGo st.nvr).map
        (fun n => ("Service stopped.", { st with nvr := n }))
    else if cmd0 == "config" then some (configString st.config, st)
    else if cmd0 == "addCamera" then
      match rest with
      | [] => none
      | payload :: _ =>
        let r := addCamera st.store (parse payload)
        some (r.1, { st with store := r.2 })
    else some ("Unknown command", st)

/-- Embedding of Go `strings.TrimSpace`: drop leading and trailing
whitespace. -/
def trimSpace (s : String) : String :=
  String.mk (((s.data.dropWhile Char.isWhitespace).reverse.dropWhile Char.isWhitespace).reverse)

/-- Embedding of `handleCLIConn` (lines 211–223) over the list of lines
received before the connection closes: each line is trimmed, handled, and
answered with `response ++ "\n"` before the next line is read.  `none`
propagates a handler panic or permanent block, after which no further
response is ever written. -/
def handleCLIConn (parse : String → ParseOutcome) :
    ServerState → List String → Option (List String × ServerState)
  | st, [] => some ([], st)
  | st, line :: rest =>
    match handleCLICommand parse (trimSpace line) st with
    | none => none
    | some (resp, st1) =>
      (handleCLIConn parse st1 rest).map (fun p => ((resp ++ "\n") :: p.1, p.2))

/-- Two's-complement wrap-around of signed 64-bit arithmetic (Go `int64`
overflow is defined to wrap). -/
def wrap64 (n : Int) : Int :=
  (n + 2 ^ 63) % 2 ^ 64 - 2 ^ 63

/-- `time.Duration(seconds) * time.Second`: an `int64` multiplication by
10^9, wrapping on overflow. -/
def goDurationSecondsNs (seconds : Int) : Int :=
  wrap64 (seconds * 1000000000)

/-- Nanoseconds actually slept by `time.Sleep(d)`: a negative or zero
duration returns immediately. -/
def goSleepNs (d : Int) : Int :=
  if d ≤ 0 then 0 else d

/-- The inter-restart delay of the supervisor loop (line 181):
`time.Sleep(time.Duration(config.RetryInterval) * time.Second)`. -/
def interRestartDelayNs (cfg : Config) : Int :=
  goSleepNs (goDurationSecondsNs cfg.retryInterval)

/-- Outcome of one iteration of the supervisor loop after `cmd.Run`
returns: whether the goroutine exits, and how long it sleeps before the
next restart when it does not. -/
structure LoopStep where
  exits : Bool
  delayNs : Int
deriving DecidableEq, Repr

/-- One iteration of the supervisor loop (lines 172–183) after the process
exited: when `stopCh` is closed the goroutine returns, otherwise it sleeps
the configured retry interval and loops back to restart the process.  The
retry delay is the same fixed interval on every failure; `maxBackoff` is
never consulted by this loop. -/
def supervisorLoopIter (cfg : Config) (stopClosed : Bool) : LoopStep :=
  if stopClosed then ⟨true, 0⟩ else ⟨false, interRestartDelayNs cfg⟩

/-- All registered workers have an open stop channel — true of every state
this program produces, since `stopWorker` deletes an entry in the same
critical section that closes its channel. -/
def wfWorkers (s : NvrState) : Bool :=
  s.workers.all (fun e => !e.2.stopClosed)

/-- The decoded payload's `name`, `url` and `output_dir` are all absent
from the store (the uniqueness precondition the round-trip claim
quantifies over). -/
def freshNameUrlDir (st : Store) (cam : Camera) : Bool :=
  st.rows.all (fun r =>
    !(r.name == cam.name) && !(r.url == cam.url) && !(r.outputDir == cam.outputDir))

/-- The decoded payload collides with no UNIQUE column of any stored row,
including the stored `restream_url` string. -/
def freshCam (st : Store) (cam : Camera) : Bool :=
  st.rows.all (fun r =>
    !(r.name == cam.name) && !(r.url == cam.url) &&
    !(r.outputDir == cam.outputDir) && !(r.restreamUrl == cam.restream.string))

/-- The decoded payload duplicates the `name`, `url` or `output_dir` of
some stored row. -/
def dupNameUrlDir (st : Store) (cam : Camera) : Bool :=
  st.rows.any (fun r =>
    (r.name == cam.name) || (r.url == cam.url) || (r.outputDir == cam.outputDir))

/-! Concrete fixtures used by the closed theorems and witnesses below. -/

/-- A JSON `null` as `UnmarshalJSON` decodes it. -/
def nullJNS : JSONNullString := ⟨"", false⟩

/-- The default config `loadConfig` installs on first run. -/
def cfgW : Config := ⟨300, 10, 60⟩

/-- A camera payload with all nullable fields `null`. -/
def camA : Camera := ⟨0, "cam1", "rtsp://a/1", "/out1", nullJNS, nullJNS, nullJNS⟩

/-- A second payload, distinct from `camA` in every non-null field. -/
def camB : Camera := ⟨0, "cam2", "rtsp://a/2", "/out2", nullJNS, nullJNS, nullJNS⟩

/-- The empty store right after `initDB` on a fresh database. -/
def st0 : Store := ⟨[], 1⟩

/-- The store after `addCamera` has accepted `camA`. -/
def stA : Store := (addCamera st0 (ParseOutcome.ok camA)).2

/-- A registered worker handle for camera 1 whose process is running. -/
def wW : Worker :=
  ⟨⟨1, "c1", "rtsp://h/1", "/o1", nullJNS, nullJNS, nullJNS⟩, [], false, true⟩

/-- Worker-subsystem state with exactly one active worker, lock free. -/
def nvrW : NvrState := ⟨[(1, wW)], false, [], []⟩

/-- Worker-subsystem state with no workers, lock free. -/
def nvrEmpty : NvrState := ⟨[], false, [], []⟩

/-- Server state holding the one-worker registry and an empty store. -/
def srvW : ServerState := ⟨st0, nvrW, cfgW⟩

/-- A `json.Unmarshal` outcome for payloads that fail to decode. -/
def parseReject : String → ParseOutcome := fun _ => ParseOutcome.err ("bad")

/-! Helper lemmas. -/

/-- A list is a Boolean prefix of itself followed by anything. -/
theorem prefixOfB_append_self (l r : List Char) : prefixOfB l (l ++ r) = true := by
  induction l with
  | nil => rfl
  | cons c t ih => simp [prefixOfB, ih]

/-- A Boolean prefix is in particular a Boolean substring. -/
theorem hasSub_of_prefixOfB (sub s : List Char) (h : prefixOfB sub s = true) :
    hasSub sub s = true := by
  cases s with
  | nil => simpa [hasSub] using h
  | cons c t => simp [hasSub, h]

/-- A list is a Boolean substring of itself followed by anything. -/
theorem hasSub_append_self (l r : List Char) : hasSub l (l ++ r) = true :=
  hasSub_of_prefixOfB l (l ++ r) (prefixOfB_append_self l r)

/-- Substring occurrence survives prepending. -/
theorem hasSub_append_right (sub t : List Char) (h : hasSub sub t = true) :
    ∀ p : List Char, hasSub sub (p ++ t) = true := by
  intro p
  induction p with
  | nil => simpa using h
  | cons c q ih => simp [hasSub, ih]

/-- Every member of a list of strings occurs as a substring of their
in-order concatenation. -/
theorem hasSub_concatAll_mem (l : String) (L : List String) (h : l ∈ L) :
    hasSub l.data (concatAll L).data = true := by
  induction L with
  | nil => cases h
  | cons x xs ih =>
    rcases List.mem_cons.mp h with h1 | h2
    · subst h1
      rw [concatAll, String.data_append]
      exact hasSub_append_self l.data (concatAll xs).data
    · rw [concatAll, String.data_append]
      exact hasSub_append_right l.data (concatAll xs).data (ih h2) x.data

/-- Deleting a key removes it from lookup. -/
theorem lookupAssoc_removeKey (l : List (Int × Worker)) (id : Int) :
    lookupAssoc (removeKey l id) id = none := by
  induction l with
  | nil => rfl
  | cons e rest ih =>
    by_cases he : e.1 == id
    · simpa [removeKey, List.filter, he] using ih
    · simp only [removeKey, List.filter] at ih ⊢
      simp [he, lookupAssoc, ih]

/-- A successful lookup on a well-formed registry returns a worker whose
stop channel is still open. -/
theorem stopClosed_of_lookup_wf (l : List (Int × Worker)) (id : Int) (w : Worker)
    (hall : l.all (fun e => !e.2.stopClosed) = true)
    (hl : lookupAssoc l id = some w) : w.stopClosed = false := by
  induction l with
  | nil => cases hl
  | cons e rest ih =>
    rw [List.all_cons, Bool.and_eq_true] at hall
    rw [lookupAssoc] at hl
    by_cases he : e.1 == id
    · rw [if_pos he] at hl
      cases hl
      simpa using hall.1
    · rw [if_neg he] at hl
      exact ih hall.2 hl

/-- Freshness of all four UNIQUE columns rules out a constraint
violation. -/
theorem violatesUnique_eq_false_of_fresh (st : Store) (cam : Camera)
    (h : freshCam st cam = true) :
    violatesUnique st (rowOfCamera st cam) = false := by
  rw [freshCam, List.all_eq_true] at h
  rw [violatesUnique]
  rw [← Bool.not_eq_true, List.any_eq_true]
  rintro ⟨r, hr, hp⟩
  have hc := h r hr
  simp only [Bool.and_eq_true, Bool.not_eq_true', beq_eq_false_iff_ne] at hc
  simp only [rowOfCamera, Bool.or_eq_true, beq_iff_eq] at hp
  rcases hp with ((h1 | h2) | h3) | h4
  · exact hc.1.1.1 h1
  · exact hc.1.1.2 h2
  · exact hc.1.2 h3
  · exact hc.2 h4

/-- A duplicate in one of the three always-string UNIQUE columns forces a
constraint violation. -/
theorem violatesUnique_of_dup (st : Store) (cam : Camera)
    (h : dupNameUrlDir st cam = true) :
    violatesUnique st (rowOfCamera st cam) = true := by
  rw [dupNameUrlDir, List.any_eq_true] at h
  rcases h with ⟨r, hr, hp⟩
  rw [violatesUnique, List.any_eq_true]
  refine ⟨r, hr, ?_⟩
  simp only [Bool.or_eq_true, beq_iff_eq] at hp ⊢
  simp only [rowOfCamera]
  rcases hp with (h1 | h2) | h3
  · exact Or.inl (Or.inl (Or.inl h1))
  · exact Or.inl (Or.inl (Or.inr h2))
  · exact Or.inl (Or.inr h3)

/-- 64-bit wrap-around is the identity inside the representable range. -/
theorem wrap64_eq_self (n : Int) (h1 : -(2 ^ 63) ≤ n) (h2 : n < 2 ^ 63) :
    wrap64 n = n := by
  rw [wrap64, Int.emod_eq_of_lt (by linarith) (by norm_num; linarith)]
  ring

/-! Claim theorems. -/

/-- Claim C1: the spec says that once the `stop` command's response is
returned the registry is empty and every worker's process has been
terminated under the registry lock.  The code cannot deliver this: with at
least one registered worker, `stopService` holds `workersMu` and calls
`stopWorker`, whose own `workersMu.Lock()` on the same non-reentrant mutex
blocks forever, so no entry is removed, no process is killed, and no
response is ever written. -/
theorem stopService_deadlocks_on_nonempty_registry :
    nvrW.workers ≠ [] ∧
    stopServiceGo nvrW = none ∧
    handleCLICommand parseReject ("stop") srvW = none := by
  refine ⟨by decide, rfl, rfl⟩

/-- Claim C2: the spec says every input line — including a bare
`addCamera` with no `|payload` separator — yields exactly one response
line.  The code instead evaluates `parts[1]` on such a line although
`strings.SplitN` returned a single-element slice, so the handler panics
with an index-out-of-range error and no response is written. -/
theorem bare_addCamera_line_panics :
    handleCLICommand parseReject ("addCamera") srvW = none ∧
    handleCLIConn parseReject srvW ["addCamera\n"] = none := by
  refine ⟨rfl, rfl⟩

/-- A retry interval so large that converting it to `int64` nanoseconds
overflows: 2^34 seconds. -/
def cfgBig : Config := ⟨300, 17179869184, 17179869184⟩

/-- Claim C3, counterexample: with `retryInterval = maxBackoff = 2^34`
(satisfying `retryInterval ≥ 0` and `maxBackoff ≥ retryInterval`), the
`time.Duration(retryInterval) * time.Second` multiplication wraps to a
negative `int64`, `time.Sleep` returns immediately, and the inter-restart
delay is `0`, strictly below `retryInterval` — refuting the claim as
stated. -/
theorem supervisor_delay_overflow_cex :
    (0 : Int) ≤ cfgBig.retryInterval ∧
    cfgBig.retryInterval ≤ cfgBig.maxBackoff ∧
    (supervisorLoopIter cfgBig false).exits = false ∧
    (supervisorLoopIter cfgBig false).delayNs = 0 ∧
    (supervisorLoopIter cfgBig false).delayNs < cfgBig.retryInterval * 1000000000 := by
  refine ⟨by decide, by decide, rfl, by decide, by decide⟩

/-- Claim C3, amended: for every config with `0 ≤ retryInterval ≤
maxBackoff` and `retryInterval` small enough that the nanosecond
conversion does not overflow `int64` (`retryInterval ≤ 9223372036`), a
supervised worker whose process exits is restarted after a delay that is
never negative, never below `retryInterval` and bounded by `maxBackoff`
(the delay is exactly `retryInterval` seconds). -/
theorem supervisor_delay_bounds (cfg : Config)
    (h0 : 0 ≤ cfg.retryInterval)
    (h1 : cfg.retryInterval ≤ cfg.maxBackoff)
    (h2 : cfg.retryInterval ≤ 9223372036) :
    (supervisorLoopIter cfg false).exits = false ∧
    0 ≤ (supervisorLoopIter cfg false).delayNs ∧
    cfg.retryInterval * 1000000000 ≤ (supervisorLoopIter cfg false).delayNs ∧
    (supervisorLoopIter cfg false).delayNs ≤ cfg.maxBackoff * 1000000000 := by
  have hx0 : 0 ≤ cfg.retryInterval * 1000000000 :=
    mul_nonneg h0 (by norm_num)
  have hxlt : cfg.retryInterval * 1000000000 < 2 ^ 63 := by
    have hstep : cfg.retryInterval * 1000000000 ≤ 9223372036 * 1000000000 :=
      mul_le_mul_of_nonneg_right h2 (by norm_num)
    calc cfg.retryInterval * 1000000000 ≤ 9223372036 * 1000000000 := hstep
      _ < 2 ^ 63 := by norm_num
  have hw : goDurationSecondsNs cfg.retryInterval = cfg.retryInterval * 1000000000 := by
    rw [goDurationSecondsNs]
    exact wrap64_eq_self _ (by linarith) hxlt
  have hs : interRestartDelayNs cfg = cfg.retryInterval * 1000000000 := by
    rw [interRestartDelayNs, hw, goSleepNs]
    by_cases hle : cfg.retryInterval * 1000000000 ≤ 0
    · have hz : cfg.retryInterval * 1000000000 = 0 := le_antisymm hle hx0
      simp [hle, hz]
    · simp [hle]
  have hstep : supervisorLoopIter cfg false = ⟨false, interRestartDelayNs cfg⟩ := rfl
  rw [hstep]
  refine ⟨rfl, ?_, ?_, ?_⟩
  · show 0 ≤ interRestartDelayNs cfg
    rw [hs]; exact hx0
  · show cfg.retryInterval * 1000000000 ≤ interRestartDelayNs cfg
    rw [hs]
  · show interRestartDelayNs cfg ≤ cfg.maxBackoff * 1000000000
    rw [hs]
    exact mul_le_mul_of_nonneg_right h1 (by norm_num)

/-- Witness for `supervisor_delay_bounds` at the default config
`⟨300, 10, 60⟩`. -/
theorem supervisor_delay_bounds_witness :
    ((0 : Int) ≤ cfgW.retryInterval ∧ cfgW.retryInterval ≤ cfgW.maxBackoff ∧
     cfgW.retryInterval ≤ 9223372036) ∧
    ((supervisorLoopIter cfgW false).exits = false ∧
     0 ≤ (supervisorLoopIter cfgW false).delayNs ∧
     cfgW.retryInterval * 1000000000 ≤ (supervisorLoopIter cfgW false).delayNs ∧
     (supervisorLoopIter cfgW false).delayNs ≤ cfgW.maxBackoff * 1000000000) :=
  ⟨⟨by decide, by decide, by decide⟩,
   supervisor_delay_bounds cfgW (by decide) (by decide) (by decide)⟩

/-- Claim C4, counterexample: `startWorker` registers the handle before
its goroutine ever attempts to spawn the process, and the goroutine never
touches the registry, so after a failed spawn (`cmd.Run` error logged for
`camA`) the entry for `camA` is still registered — refuting "failed
spawns do not register". -/
theorem startWorker_spawn_failure_cex :
    (startWorkerThenSpawn camA cfgW false nvrEmpty).map
        (fun s => (lookupAssoc s.workers camA.id).isSome) = some true ∧
    (startWorkerThenSpawn camA cfgW false nvrEmpty).map
        (fun s => s.errorsLogged) = some ["cam1"] := by
  refine ⟨rfl, rfl⟩

/-- Claim C4, amended: when spawning the capture process fails, the
camera's registry entry remains registered exactly as `startWorker` wrote
it (the supervisor loop will keep retrying); the only other effect is the
logged failure line, so the rest of the registry and the handling of
other commands and connections are unaffected. -/
theorem startWorker_spawn_failure_registers (cam : Camera) (cfg : Config)
    (s : NvrState) (args : List String)
    (h1 : s.lockHeld = false)
    (h2 : containsKey s.workers cam.id = false)
    (h3 : buildArgs cam cfg = some args) :
    startWorkerThenSpawn cam cfg false s =
      some { s with workers := s.workers ++ [(cam.id, ⟨cam, args, false, false⟩)],
                    errorsLogged := s.errorsLogged ++ [cam.name] } := by
  simp [startWorkerThenSpawn, startWorkerGo, h1, h2, h3]

/-- Witness for `startWorker_spawn_failure_registers`: `camA` on the empty
registry, with its concrete ffmpeg argument list. -/
def argsA : List String :=
  ["-i", "rtsp://a/1", "-c", "copy", "-f", "segment", "-segment_time", "300",
   "/out1/output_%03d.mp4"]

/-- Witness for `startWorker_spawn_failure_registers` at `camA`, the
default config and the empty registry. -/
theorem startWorker_spawn_failure_registers_witness :
    (nvrEmpty.lockHeld = false ∧ containsKey nvrEmpty.workers camA.id = false ∧
     buildArgs camA cfgW = some argsA) ∧
    startWorkerThenSpawn camA cfgW false nvrEmpty =
      some { nvrEmpty with
               workers := nvrEmpty.workers ++ [(camA.id, ⟨camA, argsA, false, false⟩)],
               errorsLogged := nvrEmpty.errorsLogged ++ [camA.name] } :=
  ⟨⟨rfl, rfl, rfl⟩,
   startWorker_spawn_failure_registers camA cfgW nvrEmpty argsA rfl rfl rfl⟩

/-- Claim C5: starting a worker for a camera id already present in the
registry returns the "already running" indication and leaves the whole
registry state — the existing handle included — unchanged. -/
theorem startWorker_already_running (cam : Camera) (cfg : Config) (s : NvrState)
    (h1 : s.lockHeld = false)
    (h2 : containsKey s.workers cam.id = true) :
    startWorkerGo cam cfg s = some (StartResult.alreadyRunning, s) := by
  rw [startWorkerGo, if_neg (by simp [h1]), if_pos h2]

/-- Witness for `startWorker_already_running`: restarting camera 1 while
`nvrW` already holds a worker for it. -/
theorem startWorker_already_running_witness :
    (nvrW.lockHeld = false ∧ containsKey nvrW.workers (wW.camera).id = true) ∧
    startWorkerGo wW.camera cfgW nvrW = some (StartResult.alreadyRunning, nvrW) :=
  ⟨⟨rfl, by decide⟩, startWorker_already_running wW.camera cfgW nvrW rfl (by decide)⟩

/-- Claim C6: a direct `stopWorker` call (lock free, stop channels open)
is idempotent — a second call in a row changes nothing; stopping an id
with no registered handle is a no-op (stated on the state with the id
removed, which covers every handle-free state); and after a stop, lookup
of the id is absent. -/
theorem stopWorker_idempotent_and_clears (s : NvrState) (id : Int)
    (h1 : s.lockHeld = false)
    (h2 : wfWorkers s = true) :
    (stopWorkerGo id s).bind (stopWorkerGo id) = stopWorkerGo id s ∧
    (stopWorkerGo id s).map (fun s1 => lookupAssoc s1.workers id) = some none ∧
    stopWorkerGo id { s with workers := removeKey s.workers id } =
      some { s with workers := removeKey s.workers id } := by
  have hnl : ¬ (s.lockHeld = true) := by simp [h1]
  have hnoop : stopWorkerGo id { s with workers := removeKey s.workers id } =
      some { s with workers := removeKey s.workers id } := by
    simp [stopWorkerGo, h1, lookupAssoc_removeKey]
  cases hl : lookupAssoc s.workers id with
  | none =>
    have h1s : stopWorkerGo id s = some s := by
      rw [stopWorkerGo, if_neg hnl, hl]
    refine ⟨?_, ?_, hnoop⟩
    · rw [h1s, Option.some_bind, h1s]
    · rw [h1s, Option.map_some', hl]
  | some w =>
    have hw : w.stopClosed = false :=
      stopClosed_of_lookup_wf s.workers id w h2 hl
    have h1s : stopWorkerGo id s =
        some { s with workers := removeKey s.workers id,
                      killed := if w.procStarted then s.killed ++ [id] else s.killed } := by
      rw [stopWorkerGo, if_neg hnl, hl]
      simp [hw]
    refine ⟨?_, ?_, hnoop⟩
    · rw [h1s, Option.some_bind]
      simp [stopWorkerGo, h1, lookupAssoc_removeKey]
    · rw [h1s, Option.map_some']
      simp [lookupAssoc_removeKey]

/-- Witness for `stopWorker_idempotent_and_clears` at camera 1 on the
one-worker state `nvrW`. -/
theorem stopWorker_idempotent_and_clears_witness :
    (nvrW.lockHeld = false ∧ wfWorkers nvrW = true) ∧
    ((stopWorkerGo 1 nvrW).bind (stopWorkerGo 1) = stopWorkerGo 1 nvrW ∧
     (stopWorkerGo 1 nvrW).map (fun s1 => lookupAssoc s1.workers 1) = some none ∧
     stopWorkerGo 1 { nvrW with workers := removeKey nvrW.workers 1 } =
       some { nvrW with workers := removeKey nvrW.workers 1 }) :=
  ⟨⟨rfl, by decide⟩, stopWorker_idempotent_and_clears nvrW 1 rfl (by decide)⟩

/-- Claim C7, counterexample: `camB`'s name, url and output_dir are all
unique in `stA` (the store holding only `camA`), yet `addCamera` returns
a failure response and the store is unchanged — because both payloads
carry `restream: null`, stored as the empty string in the UNIQUE
`restream_url` column.  The subsequent `list` output does not include the
new camera either. -/
theorem addCamera_roundtrip_cex :
    freshNameUrlDir stA camB = true ∧
    (addCamera stA (ParseOutcome.ok camB)).1 = dbErrorResponse dbUniqueMsg ∧
    respStatusFailure (addCamera stA (ParseOutcome.ok camB)).1 = true ∧
    (addCamera stA (ParseOutcome.ok camB)).2 = stA ∧
    strContains (listCamerasString (addCamera stA (ParseOutcome.ok camB)).2)
      (listLine stA.nextId camB.name camB.url) = false := by
  refine ⟨by decide, rfl, by decide, rfl, by decide⟩

/-- Claim C7, amended: for every payload that decodes successfully and
collides with no stored row on any of the four UNIQUE columns — name,
url, output_dir, and the stored restream string (empty for a null
restream) — `addCamera` returns the success response carrying the store's
next numeric id, and the `list` response afterwards contains the line
with that id, the camera's name and its URL. -/
theorem addCamera_unique_roundtrip (st : Store) (cam : Camera)
    (hfresh : freshCam st cam = true) :
    (addCamera st (ParseOutcome.ok cam)).1 = successResponse st.nextId ∧
    strContains (listCamerasString (addCamera st (ParseOutcome.ok cam)).2)
      (listLine st.nextId cam.name cam.url) = true := by
  have hvu := violatesUnique_eq_false_of_fresh st cam hfresh
  have hins : dbInsertCamera st cam =
      some (st.nextId, { rows := st.rows ++ [rowOfCamera st cam], nextId := st.nextId + 1 }) := by
    rw [dbInsertCamera, if_neg (by simp [hvu])]
  have hadd : addCamera st (ParseOutcome.ok cam) =
      (successResponse st.nextId,
       { rows := st.rows ++ [rowOfCamera st cam], nextId := st.nextId + 1 }) := by
    rw [addCamera, hins]
  refine ⟨by rw [hadd], ?_⟩
  rw [hadd]
  have hline : camLine (rowOfCamera st cam) = listLine st.nextId cam.name cam.url := rfl
  have hmem : camLine (rowOfCamera st cam) ∈ (st.rows ++ [rowOfCamera st cam]).map camLine :=
    List.mem_map_of_mem camLine (List.mem_append_right _ (List.mem_singleton.mpr rfl))
  have hsub := hasSub_concatAll_mem (camLine (rowOfCamera st cam)) _ hmem
  show strContains
      (listCamerasString { rows := st.rows ++ [rowOfCamera st cam], nextId := st.nextId + 1 })
      (listLine st.nextId cam.name cam.url) = true
  rw [strContains, listCamerasString, ← hline]
  exact hsub

/-- Witness for `addCamera_unique_roundtrip`: `camA` added to the empty
store. -/
theorem addCamera_unique_roundtrip_witness :
    freshCam st0 camA = true ∧
    ((addCamera st0 (ParseOutcome.ok camA)).1 = successResponse st0.nextId ∧
     strContains (listCamerasString (addCamera st0 (ParseOutcome.ok camA)).2)
       (listLine st0.nextId camA.name camA.url) = true) :=
  ⟨rfl, addCamera_unique_roundtrip st0 camA rfl⟩

/-- A camera record whose username is present but whose password is a
JSON `null` (absent). -/
def cam8 : Camera := ⟨1, "c", "rtsp://host/stream", "/o", ⟨"u", true⟩, nullJNS, nullJNS⟩

/-- Claim C8, counterexample: `cam8`'s password is absent, so per the
claim the stream locator should be used unchanged; but `startWorker`'s
condition checks only the username, and the built locator embeds
`u:` with an empty password into the authority instead of leaving the URL
untouched. -/
theorem capture_builder_password_absent_cex :
    cam8.password.valid = false ∧
    buildFullURL cam8 = some ("rtsp://u:@host/stream") ∧
    ¬ buildFullURL cam8 = some cam8.url := by
  refine ⟨rfl, rfl, by decide⟩

/-- Claim C8, amended: the invocation's stream locator embeds
`username:password@` into the authority component exactly when the
username is present and non-empty — the password field is not consulted,
and its string value (empty when absent) is embedded — and otherwise the
locator is the camera's URL unchanged; the builder is a pure function of
the camera record and leaves it unmodified. -/
theorem capture_builder_embed_condition (cam : Camera) (a b : String)
    (hsplit : splitN2 cam.url ("://") = [a, b]) :
    buildFullURL cam = some (if usernamePresent cam
      then a ++ "://" ++ cam.username.string ++ ":" ++ cam.password.string ++ "@" ++ b
      else cam.url) := by
  cases h : usernamePresent cam with
  | true => simp [buildFullURL, h, hsplit]
  | false => simp [buildFullURL, h]

/-- Witness for `capture_builder_embed_condition` at `cam8`. -/
theorem capture_builder_embed_condition_witness :
    splitN2 cam8.url ("://") = ["rtsp", "host/stream"] ∧
    buildFullURL cam8 = some (if usernamePresent cam8
      then "rtsp" ++ "://" ++ cam8.username.string ++ ":" ++ cam8.password.string ++ "@" ++ "host/stream"
      else cam8.url) :=
  ⟨by decide, capture_builder_embed_condition cam8 ("rtsp") ("host/stream") (by decide)⟩

/-- Claim C9: a malformed payload yields the invalid-JSON failure response
and leaves the store untouched, and a payload duplicating the name, url
or output_dir of a stored row yields the database failure response and
leaves the store — in particular its camera count — unchanged. -/
theorem addCamera_failure_paths (st : Store) (cam : Camera) (m : String)
    (hdup : dupNameUrlDir st cam = true) :
    addCamera st (ParseOutcome.err m) = (invalidJSONResponse m, st) ∧
    addCamera st (ParseOutcome.ok cam) = (dbErrorResponse dbUniqueMsg, st) ∧
    (addCamera st (ParseOutcome.ok cam)).2.rows.length = st.rows.length := by
  have hvu := violatesUnique_of_dup st cam hdup
  have hins : dbInsertCamera st cam = none := by
    rw [dbInsertCamera, if_pos hvu]
  have hadd : addCamera st (ParseOutcome.ok cam) = (dbErrorResponse dbUniqueMsg, st) := by
    rw [addCamera, hins]
  exact ⟨rfl, hadd, by rw [hadd]⟩

/-- Witness for `addCamera_failure_paths`: a malformed payload and a
duplicate of `camA` against the store already holding `camA`. -/
theorem addCamera_failure_paths_witness :
    dupNameUrlDir stA camA = true ∧
    (addCamera stA (ParseOutcome.err ("bad")) = (invalidJSONResponse ("bad"), stA) ∧
     addCamera stA (ParseOutcome.ok camA) = (dbErrorResponse dbUniqueMsg, stA) ∧
     (addCamera stA (ParseOutcome.ok camA)).2.rows.length = stA.rows.length) :=
  ⟨by decide, addCamera_failure_paths stA camA ("bad") (by decide)⟩

/-- Claim C10: `addCamera` stores a null restream (and null
username/password) as the empty string, never as SQL NULL; since
`initDB` declares `restream_url` UNIQUE, of two payloads with null
restream and mutually fresh name/url/output_dir the first insert succeeds
— its stored row carrying `""` in the restream column — and the second
returns a failure response, leaving the store unchanged. -/
theorem addCamera_null_restream_conflict (st : Store) (cam1 cam2 : Camera)
    (h1 : freshCam st cam1 = true)
    (hr1 : cam1.restream = nullJNS)
    (hr2 : cam2.restream = nullJNS)
    (h2 : freshNameUrlDir (addCamera st (ParseOutcome.ok cam1)).2 cam2 = true) :
    (addCamera st (ParseOutcome.ok cam1)).1 = successResponse st.nextId ∧
    (addCamera st (ParseOutcome.ok cam1)).2.rows =
      st.rows ++ [⟨st.nextId, cam1.name, cam1.url, cam1.outputDir, "",
                   cam1.username.string, cam1.password.string⟩] ∧
    (addCamera (addCamera st (ParseOutcome.ok cam1)).2 (ParseOutcome.ok cam2)).1 =
      dbErrorResponse dbUniqueMsg ∧
    (addCamera (addCamera st (ParseOutcome.ok cam1)).2 (ParseOutcome.ok cam2)).2 =
      (addCamera st (ParseOutcome.ok cam1)).2 := by
  have hvu := violatesUnique_eq_false_of_fresh st cam1 h1
  have hrow : rowOfCamera st cam1 =
      ⟨st.nextId, cam1.name, cam1.url, cam1.outputDir, "",
       cam1.username.string, cam1.password.string⟩ := by
    simp [rowOfCamera, hr1, nullJNS]
  have hins : dbInsertCamera st cam1 =
      some (st.nextId, { rows := st.rows ++ [rowOfCamera st cam1], nextId := st.nextId + 1 }) := by
    rw [dbInsertCamera, if_neg (by simp [hvu])]
  have hadd : addCamera st (ParseOutcome.ok cam1) =
      (successResponse st.nextId,
       { rows := st.rows ++ [rowOfCamera st cam1], nextId := st.nextId + 1 }) := by
    rw [addCamera, hins]
  have hviol : violatesUnique
      { rows := st.rows ++ [rowOfCamera st cam1], nextId := st.nextId + 1 }
      (rowOfCamera { rows := st.rows ++ [rowOfCamera st cam1], nextId := st.nextId + 1 } cam2)
        = true := by
    rw [violatesUnique, List.any_eq_true]
    refine ⟨rowOfCamera st cam1,
      List.mem_append_right _ (List.mem_singleton.mpr rfl), ?_⟩
    simp [rowOfCamera, hr1, hr2, nullJNS]
  have hins2 : dbInsertCamera
      { rows := st.rows ++ [rowOfCamera st cam1], nextId := st.nextId + 1 } cam2 = none := by
    rw [dbInsertCamera, if_pos hviol]
  have hadd2 : addCamera
      { rows := st.rows ++ [rowOfCamera st cam1], nextId := st.nextId + 1 }
      (ParseOutcome.ok cam2) =
      (dbErrorResponse dbUniqueMsg,
       { rows := st.rows ++ [rowOfCamera st cam1], nextId := st.nextId + 1 }) := by
    rw [addCamera, hins2]
  refine ⟨by rw [hadd], ?_, ?_, ?_⟩
  · rw [hadd, hrow]
  · rw [hadd, hadd2]
  · rw [hadd, hadd2]

/-- Witness for `addCamera_null_restream_conflict`: `camA` then `camB`,
both with null restream, on the empty store. -/
theorem addCamera_null_restream_conflict_witness :
    (freshCam st0 camA = true ∧ camA.restream = nullJNS ∧ camB.restream = nullJNS ∧
     freshNameUrlDir (addCamera st0 (ParseOutcome.ok camA)).2 camB = true) ∧
    ((addCamera st0 (ParseOutcome.ok camA)).1 = successResponse st0.nextId ∧
     (addCamera st0 (ParseOutcome.ok camA)).2.rows =
       st0.rows ++ [⟨st0.nextId, camA.name, camA.url, camA.outputDir, "",
                     camA.username.string, camA.password.string⟩] ∧
     (addCamera (addCamera st0 (ParseOutcome.ok camA)).2 (ParseOutcome.ok camB)).1 =
       dbErrorResponse dbUniqueMsg ∧
     (addCamera (addCamera st0 (ParseOutcome.ok camA)).2 (ParseOutcome.ok camB)).2 =
       (addCamera st0 (ParseOutcome.ok camA)).2) :=
  ⟨⟨rfl, rfl, rfl, by decide⟩,
   addCamera_null_restream_conflict st0 camA camB rfl rfl rfl (by decide)⟩

end SimpleNVR
